import Mathlib

/-!
Shallow embedding of `src/backend/server.js` (YouTube content analyser).

Strings are modelled as `List Char` (JS strings are sequences of UTF-16 code
units; for the inputs considered here, one `Char` per code unit).  External
HTTP calls (`axios`) are modelled as oracle functions passed in explicitly:
a call that throws is an oracle returning `none` / `Except.error`.
-/

/-! ### JS character classes used by the regexes in server.js -/

/-- JS regex `\s` restricted to the ASCII whitespace characters
(space, tab, newline, carriage return, vertical tab, form feed).
The Unicode space characters `\s` also accepts never occur in the
inputs considered here. -/
def jsSpace (c : Char) : Bool :=
  c = ' ' || c = '\t' || c = '\n' || c = '\r' || c = '\x0b' || c = '\x0c'

/-- JS regex `\w`: ASCII letter, digit or underscore. -/
def isWordChar (c : Char) : Bool :=
  c.isAlpha || c.isDigit || c = '_'

/-- JS regex line terminators, which the wildcard `.` does not match
(no `s` flag is used anywhere in server.js). -/
def isLineTerm (c : Char) : Bool :=
  c = '\n' || c = '\r' || c = ' ' || c = ' '

/-- Case-insensitive character comparison, as performed by a regex with the
`i` flag (ASCII simple case folding). -/
def ciCharEq (p c : Char) : Bool :=
  p.toLower = c.toLower

/-- `parseInt` applied to the digit run captured by `(\d+)`. -/
def digitsToNat (l : List Char) : Nat :=
  l.foldl (fun n c => 10 * n + (c.toNat - 48)) 0

/-- Case-insensitive literal-prefix removal: `ciStrip pat text` returns the
remainder of `text` when `text` starts with `pat` up to case, else `none`. -/
def ciStrip : List Char → List Char → Option (List Char)
  | [], text => some text
  | _ :: _, [] => none
  | p :: ps, c :: cs => if ciCharEq p c then ciStrip ps cs else none

/-! ### The per-subtopic parse of `analyzeCoverage`

server.js builds, for each subtopic `sub`,
`new RegExp(`${sub}[\s\S]*?Score:\s*(\d+)`, 'i')` and takes the first match
in the reply text.  The subtopic label is interpolated into the pattern
unescaped.  This embedding interprets label characters literally except for
`.`, which is the regex wildcard; labels containing any other regex
metacharacter (`\ ^ $ | ? * + ( ) [ ] { }`) are outside the domain of this
embedding (in JS they would change the pattern or make it a syntax error). -/

/-- Match of the interpolated label at the head of the text: each label
character consumes exactly one text character, `.` matching any character
other than a line terminator and every other character matching
case-insensitively. -/
def labelMatchAt : List Char → List Char → Bool
  | [], _ => true
  | _ :: _, [] => false
  | p :: ps, c :: cs =>
    (if p = '.' then !isLineTerm c else ciCharEq p c) && labelMatchAt ps cs

/-- Match of `Score:\s*(\d+)` at the head of the text (case-insensitive),
returning the parsed value of the captured digit run. -/
def scoreAt (text : List Char) : Option Nat :=
  match ciStrip ("Score:".toList) text with
  | none => none
  | some rest =>
    let ds := (rest.dropWhile jsSpace).takeWhile Char.isDigit
    if ds.isEmpty then none else some (digitsToNat ds)

/-- The lazy `[\s\S]*?` scan: first position at which `Score:\s*(\d+)`
matches, anywhere in the text (`[\s\S]` also crosses newlines). -/
def findScoreFrom : List Char → Option Nat
  | [] => none
  | text@(_ :: rest) =>
    match scoreAt text with
    | some n => some n
    | none => findScoreFrom rest

/-- Leftmost match of the whole pattern `${sub}[\s\S]*?Score:\s*(\d+)` (flag
`i`): the regex engine tries each start position left to right; at a start
position the label must match there, then the lazy gap finds the first later
`Score:` with digits; if none exists the engine moves one position right. -/
def searchSub (sub : List Char) : List Char → Option Nat
  | [] => none
  | text@(_ :: rest) =>
    match (if labelMatchAt sub text then findScoreFrom (text.drop sub.length) else none) with
    | some n => some n
    | none => searchSub sub rest

/-- One entry of `subtopicAnalysis` in server.js. -/
structure SubtopicResult where
  subtopic : List Char
  coverageScore : Nat
  covered : Bool
  evidence : List Char
  deriving Repr, DecidableEq

/-- The value returned by `analyzeCoverage` in server.js.  `overallScore` is
a JS number; `none` models `NaN` (which arises from the division `0/0`). -/
structure CoverageReport where
  overallScore : Option Nat
  subtopicAnalysis : List SubtopicResult
  summary : List Char
  deriving Repr, DecidableEq

/-- The body of the `subtopics.map` callback on the success path of
`analyzeCoverage`. -/
def parseSubtopic (responseText : List Char) (sub : List Char) : SubtopicResult :=
  match searchSub sub responseText with
  | some n =>
    { subtopic := sub
      coverageScore := n
      covered := decide (50 ≤ n)
      evidence := "Evidence found in transcript.".toList }
  | none =>
    { subtopic := sub
      coverageScore := 0
      covered := false
      evidence := "No evidence found.".toList }

/-- `subtopicAnalysis.reduce((sum, s) => sum + s.coverageScore, 0)`. -/
def scoreSum (l : List SubtopicResult) : Nat :=
  (l.map SubtopicResult.coverageScore).sum

/-- `Math.round(s / n)` for natural `s`, `n`:  JS `Math.round` rounds half
up, so for `n > 0` the value is `⌊s/n + 1/2⌋ = (2*s + n) / (2*n)` in
integer arithmetic.  When `n = 0` the caller's dividend is also `0`, the JS
quotient is `0/0 = NaN` and `Math.round(NaN) = NaN`, modelled as `none`. -/
def jsRoundDiv (s n : Nat) : Option Nat :=
  if n = 0 then none else some ((2 * s + n) / (2 * n))

/-- Lines 72–74 of server.js: `transcript.length > 4000 ?
transcript.substring(0, 4000) + "... [truncated]" : transcript`. -/
def truncatedTranscript (transcript : List Char) : List Char :=
  if transcript.length > 4000 then transcript.take 4000 ++ "... [truncated]".toList
  else transcript

/-- `subtopics.join(', ')`. -/
def joinComma : List (List Char) → List Char
  | [] => []
  | [s] => s
  | s :: rest => s ++ ", ".toList ++ joinComma rest

/-- Decimal rendering of a number interpolated into a template literal. -/
def natChars (n : Nat) : List Char :=
  (Nat.repr n).toList

/-- The template literal `prompt` of `analyzeCoverage` (including its
trailing spaces), with the truncated transcript and the comma-joined
subtopic list interpolated. -/
def buildPrompt (transcript : List Char) (subtopics : List (List Char)) : List Char :=
  ("You are an educational analyst. \nFor each subtopic listed below, provide a coverage percentage (0-100) and a short explanation based on the transcript. \nFormat each subtopic like this:\nSubtopic: <name>\nScore: <0-100>\nEvidence: <brief explanation>\n\nTranscript: \"").toList
    ++ truncatedTranscript transcript
    ++ ("\"\n\nSubtopics: ").toList
    ++ joinComma subtopics

/-- The entry produced in the `catch` branch of `analyzeCoverage`. -/
def failedSubtopicResult (sub : List Char) : SubtopicResult :=
  { subtopic := sub
    coverageScore := 0
    covered := false
    evidence := "Failed to analyze coverage.".toList }

/-- `analyzeCoverage(transcript, subtopics, topic)` of server.js.  The
Completion Requester (`callGroq`, an awaited `axios.post` whose trimmed
reply text is returned) is passed as an oracle: `none` means the call threw,
which sends control to the `catch` branch; everything before the call is
pure and cannot throw.  The `topic` parameter is unused by the source
function, as in the source. -/
def analyzeCoverage (transcript : List Char) (subtopics : List (List Char))
    (_topic : List Char) (callGroq : List Char → Option (List Char)) : CoverageReport :=
  match callGroq (buildPrompt transcript subtopics) with
  | some responseText =>
    let subtopicAnalysis := subtopics.map (parseSubtopic responseText)
    { overallScore := jsRoundDiv (scoreSum subtopicAnalysis) subtopicAnalysis.length
      subtopicAnalysis := subtopicAnalysis
      summary := "Overall coverage based on ".toList ++ natChars subtopics.length
        ++ " subtopics.".toList }
  | none =>
    { overallScore := some 0
      subtopicAnalysis := subtopics.map failedSubtopicResult
      summary := "Failed to generate coverage analysis.".toList }

/-! ### `extractVideoId`

server.js line 24: the regex
`/^.*((youtu.be\/)|(v\/)|(\/u\/\w\/)|(embed\/)|(watch\?))\??v?=?([^#&?]*).* /`
(without the final space) applied with `url.match`, returning group 7 when
it has exactly 11 characters, else `null`.

The leading `.*` is greedy and `.` does not cross a line terminator, so the
chosen occurrence of the alternation group is the rightmost position in the
first line at which one of the five alternatives matches (the five
alternatives start with the pairwise distinct characters `y v / e w`, so at
a given position at most one of them can match).  After the alternative, the
optional `\??`, `v?`, `=?` each greedily consume one matching character, and
group 7 `([^#&?]*)` greedily takes the run of characters other than
`#`, `&`, `?`; the trailing `.*` can always match the empty string, so no
backtracking of those greedy choices ever occurs. -/

/-- Match of the alternation group `((youtu.be\/)|(v\/)|(\/u\/\w\/)|(embed\/)|(watch\?))`
at the head of the text, returning the remainder after the matched
alternative.  In `youtu.be/` the `.` is the regex wildcard. -/
def altAt (text : List Char) : Option (List Char) :=
  match text with
  | 'y' :: 'o' :: 'u' :: 't' :: 'u' :: c :: 'b' :: 'e' :: '/' :: rest =>
    if isLineTerm c then none else some rest
  | 'v' :: '/' :: rest => some rest
  | '/' :: 'u' :: '/' :: w :: '/' :: rest => if isWordChar w then some rest else none
  | 'e' :: 'm' :: 'b' :: 'e' :: 'd' :: '/' :: rest => some rest
  | 'w' :: 'a' :: 't' :: 'c' :: 'h' :: '?' :: rest => some rest
  | _ => none

/-- The backtracking search of the greedy leading `^.*`: rightmost match of
the alternation group whose start is not preceded by a line terminator
(which `.` cannot cross), returning the remainder after the alternative. -/
def findAlt : List Char → Option (List Char)
  | [] => none
  | text@(c :: rest) =>
    match (if isLineTerm c then none else findAlt rest) with
    | some r => some r
    | none => altAt text

/-- The tail `\??v?=?([^#&?]*)` of the regex: greedily consume an optional
`?`, `v`, `=`, then capture the run of characters other than `#`, `&`, `?`
(group 7). -/
def group7 (rest : List Char) : List Char :=
  let r1 := match rest with | '?' :: r => r | _ => rest
  let r2 := match r1 with | 'v' :: r => r | _ => r1
  let r3 := match r2 with | '=' :: r => r | _ => r2
  r3.takeWhile (fun c => !(c = '#' || c = '&' || c = '?'))

/-- `extractVideoId(url)` of server.js: `(match && match[7].length === 11) ?
match[7] : null`. -/
def extractVideoId (url : List Char) : Option (List Char) :=
  match findAlt url with
  | none => none
  | some rest =>
    let tok := group7 rest
    if tok.length = 11 then some tok else none

/-! ### The HTTP layer -/

/-- JS truthiness of a request field expected to be a string: `undefined`
and the empty string are falsy. -/
def jsTruthyStr : Option (List Char) → Bool
  | none => false
  | some s => !s.isEmpty

/-- The condition `!customSubtopics || customSubtopics.length === 0`:
the field is missing or is the empty array (a JS array is always truthy,
so only the explicit length check rejects `[]`). -/
def emptyOrMissing : Option (List (List Char)) → Bool
  | none => true
  | some l => l.isEmpty

/-- The body of `POST /api/analyze`; a missing field is `none`. -/
structure AnalyzeRequest where
  youtubeUrl : Option (List Char)
  topic : Option (List Char)
  customSubtopics : Option (List (List Char))

/-- The value returned by `getYouTubeVideoData`. -/
structure VideoData where
  title : List Char
  description : List Char
  channelTitle : List Char
  publishedAt : List Char
  thumbnail : List Char
  deriving Repr, DecidableEq

/-- The three awaited external calls made by the `/api/analyze` handler,
as oracles: `Except.error msg` (or `none` for the Completion Requester,
whose error message is never used) models a thrown exception carrying
`err.message`. -/
structure Upstream where
  videoData : List Char → Except (List Char) VideoData
  transcript : List Char → Except (List Char) (List Char)
  callGroq : List Char → Option (List Char)

/-- The `videoInfo` object of the 200 response. -/
structure VideoInfo where
  videoId : List Char
  title : List Char
  channelTitle : List Char
  publishedAt : List Char
  thumbnail : List Char
  youtubeUrl : List Char
  deriving Repr, DecidableEq

/-- The 200 response body of `/api/analyze`. -/
structure AnalyzeOkBody where
  success : Bool
  videoInfo : VideoInfo
  transcript : List Char
  subtopics : List (List Char)
  analysis : CoverageReport
  deriving Repr, DecidableEq

/-- The HTTP responses the `/api/analyze` handler can produce:
`badRequest` is `res.status(400).json({ error })`, `serverError` is
`res.status(500).json({ error, details })`. -/
inductive ApiResponse where
  | ok (body : AnalyzeOkBody)
  | badRequest (error : List Char)
  | serverError (error : List Char) (details : List Char)
  deriving Repr, DecidableEq

/-- The `POST /api/analyze` handler of server.js, lines 130–167. -/
def analyzeHandler (req : AnalyzeRequest) (up : Upstream) : ApiResponse :=
  if !jsTruthyStr req.youtubeUrl || !jsTruthyStr req.topic
      || emptyOrMissing req.customSubtopics then
    .badRequest ("YouTube URL, topic, and at least one subtopic are required.".toList)
  else
    match extractVideoId (req.youtubeUrl.getD []) with
    | none => .badRequest ("Invalid YouTube URL.".toList)
    | some videoId =>
      match up.videoData videoId with
      | .error e => .serverError e ("Please check API keys and try again.".toList)
      | .ok vd =>
        match up.transcript videoId with
        | .error e => .serverError e ("Please check API keys and try again.".toList)
        | .ok tr =>
          let subs := req.customSubtopics.getD []
          let analysis := analyzeCoverage tr subs (req.topic.getD []) up.callGroq
          .ok
            { success := true
              videoInfo :=
                { videoId := videoId
                  title := vd.title
                  channelTitle := vd.channelTitle
                  publishedAt := vd.publishedAt
                  thumbnail := vd.thumbnail
                  youtubeUrl := ("https://www.youtube.com/watch?v=".toList) ++ videoId }
              transcript := tr.take 500 ++ (if tr.length > 500 then "...".toList else [])
              subtopics := subs
              analysis := analysis }

/-- The environment-derived configuration: each key is `none` when the
environment variable is unset. -/
structure Config where
  groqKey : Option (List Char)
  youtubeKey : Option (List Char)

/-- The `GET /api/health` response body. -/
structure HealthResponse where
  status : List Char
  message : List Char
  hasGroqKey : Bool
  hasYouTubeKey : Bool
  deriving Repr, DecidableEq

/-- The `GET /api/health` handler of server.js, lines 169–176: `!!key`
computes exactly the truthiness of the configured value. -/
def healthHandler (cfg : Config) : HealthResponse :=
  { status := "OK".toList
    message := "Server running".toList
    hasGroqKey := jsTruthyStr cfg.groqKey
    hasYouTubeKey := jsTruthyStr cfg.youtubeKey }

/-! ### Spec-side definitions for the per-subtopic parse

The spec describes the parse as searching for "the first occurrence of that
exact label" (case-insensitively) followed later by `Score:` and digits.
The following definitions follow the spec's words — the label matched as an
exact literal — to be compared with the source-derived `searchSub` /
`parseSubtopic` above, which interpolate the label into the pattern
unescaped. -/

/-- Spec-side exact (case-insensitive) match of the label at the head of
the text: every label character is literal. -/
def ciMatchAt : List Char → List Char → Bool
  | [], _ => true
  | _ :: _, [] => false
  | p :: ps, c :: cs => ciCharEq p c && ciMatchAt ps cs

/-- Spec-side search: first occurrence of the exact label followed anywhere
later (non-greedily, case-insensitively) by `Score:` and a digit run. -/
def specSearchSub (sub : List Char) : List Char → Option Nat
  | [] => none
  | text@(_ :: rest) =>
    match (if ciMatchAt sub text then findScoreFrom (text.drop sub.length) else none) with
    | some n => some n
    | none => specSearchSub sub rest

/-- Spec-side per-subtopic result, built from `specSearchSub` with the
result fields the spec describes. -/
def specParseSubtopic (responseText : List Char) (sub : List Char) : SubtopicResult :=
  match specSearchSub sub responseText with
  | some n =>
    { subtopic := sub
      coverageScore := n
      covered := decide (50 ≤ n)
      evidence := "Evidence found in transcript.".toList }
  | none =>
    { subtopic := sub
      coverageScore := 0
      covered := false
      evidence := "No evidence found.".toList }

/-- Characters that are special in a JS regex pattern.  A label containing
none of them is interpolated into the per-subtopic pattern as pure literal
text. -/
def regexSpecial (c : Char) : Bool :=
  (['\\', '^', '$', '.', '|', '?', '*', '+', '(', ')', '[', ']', '\x7b', '\x7d'] : List Char).contains c

/-- Labels made only of literal (non-special) characters. -/
def labelLiteral (sub : List Char) : Bool :=
  sub.all (fun c => !regexSpecial c)

/-! ### Helper lemmas -/

/-- Both branches of the success-path map keep the input label. -/
lemma parseSubtopic_subtopic (txt sub : List Char) :
    (parseSubtopic txt sub).subtopic = sub := by
  unfold parseSubtopic
  cases searchSub sub txt <;> rfl

/-- The catch-branch map keeps the input label. -/
lemma failedSubtopicResult_subtopic (sub : List Char) :
    (failedSubtopicResult sub).subtopic = sub := rfl

/-! ### Claim theorems -/

/-- C1: for every transcript, topic, subtopic list and Completion-Requester
oracle (hence on the success path and on the internal-failure path alike),
the `subtopicAnalysis` of the report returned by `analyzeCoverage` carries
exactly the input labels in order — its entrywise `subtopic` projection is
the input list — and in particular has the same length. -/
theorem analyzeCoverage_subtopic_labels (transcript topic : List Char)
    (subs : List (List Char)) (call : List Char → Option (List Char)) :
    ((analyzeCoverage transcript subs topic call).subtopicAnalysis).map SubtopicResult.subtopic
        = subs ∧
    ((analyzeCoverage transcript subs topic call).subtopicAnalysis).length = subs.length := by
  have hmap : ((analyzeCoverage transcript subs topic call).subtopicAnalysis).map
      SubtopicResult.subtopic = subs := by
    unfold analyzeCoverage
    cases call (buildPrompt transcript subs) with
    | some txt =>
      simp only [List.map_map]
      have : (SubtopicResult.subtopic ∘ parseSubtopic txt) = id := by
        funext s
        exact parseSubtopic_subtopic txt s
      rw [this, List.map_id]
    | none =>
      simp only [List.map_map]
      have : (SubtopicResult.subtopic ∘ failedSubtopicResult) = id := by
        funext s
        rfl
      rw [this, List.map_id]
  refine ⟨hmap, ?_⟩
  have := congrArg List.length hmap
  simpa using this

/-- C2: if the Completion Requester oracle throws on the prompt built for
this request, `analyzeCoverage` still returns (it never propagates the
exception) a report with `overallScore` 0, every subtopic entry having
score 0, `covered` false and evidence "Failed to analyze coverage.", and
the fixed failure summary. -/
theorem analyzeCoverage_failure_path (transcript topic : List Char)
    (subs : List (List Char)) (call : List Char → Option (List Char))
    (h : call (buildPrompt transcript subs) = none) :
    (analyzeCoverage transcript subs topic call).overallScore = some 0 ∧
    (∀ r ∈ (analyzeCoverage transcript subs topic call).subtopicAnalysis,
        r.coverageScore = 0 ∧ r.covered = false ∧
        r.evidence = ("Failed to analyze coverage.".toList)) ∧
    (analyzeCoverage transcript subs topic call).summary
        = ("Failed to generate coverage analysis.".toList) := by
  unfold analyzeCoverage
  rw [h]
  refine ⟨rfl, ?_, rfl⟩
  intro r hr
  rcases List.mem_map.mp hr with ⟨s, _, rfl⟩
  exact ⟨rfl, rfl, rfl⟩

/-- C2 witness: a concrete request whose Completion Requester throws. -/
theorem analyzeCoverage_failure_path_witness :
    (analyzeCoverage ("t".toList) [("x".toList)] ("topic".toList)
        (fun _ => none)).overallScore = some 0 ∧
    (analyzeCoverage ("t".toList) [("x".toList)] ("topic".toList)
        (fun _ => none)).summary = ("Failed to generate coverage analysis.".toList) := by
  have h := analyzeCoverage_failure_path ("t".toList) ("topic".toList)
    [("x".toList)] (fun _ => none) rfl
  exact ⟨h.1, h.2.2⟩

/-- C7: the transcript interpolated into the prompt is the input truncated
to its first 4000 characters with the literal marker "... [truncated]"
appended exactly when the input was longer than 4000 characters; a
transcript of at most 4000 characters is embedded unchanged; and the prompt
built by `analyzeCoverage` embeds exactly this truncated transcript. -/
theorem truncatedTranscript_spec (t : List Char) :
    (t.length > 4000 →
        truncatedTranscript t = t.take 4000 ++ ("... [truncated]".toList)) ∧
    (t.length ≤ 4000 → truncatedTranscript t = t) ∧
    (∀ subs, ∃ pre post, buildPrompt t subs = pre ++ truncatedTranscript t ++ post) := by
  refine ⟨?_, ?_, ?_⟩
  · intro h
    simp [truncatedTranscript, h]
  · intro h
    simp [truncatedTranscript, Nat.not_lt.mpr h]
  · intro subs
    exact ⟨("You are an educational analyst. \nFor each subtopic listed below, provide a coverage percentage (0-100) and a short explanation based on the transcript. \nFormat each subtopic like this:\nSubtopic: <name>\nScore: <0-100>\nEvidence: <brief explanation>\n\nTranscript: \"").toList,
      ("\"\n\nSubtopics: ").toList ++ joinComma subs, by
      simp only [buildPrompt, List.append_assoc]⟩

/-- C7 witness: a 4001-character transcript is truncated with the marker,
and a short one is passed through unchanged. -/
theorem truncatedTranscript_spec_witness :
    truncatedTranscript (List.replicate 4001 'a')
        = (List.replicate 4001 'a').take 4000 ++ ("... [truncated]".toList) ∧
    truncatedTranscript ("short".toList) = ("short".toList) := by
  constructor
  · exact (truncatedTranscript_spec (List.replicate 4001 'a')).1
      (by rw [List.length_replicate]; norm_num)
  · exact (truncatedTranscript_spec ("short".toList)).2.1 (by decide)

/-- C8: the health response is built only from the truthiness of the two
configured secrets: any two configurations agreeing on presence (truthiness)
of the LLM key and of the video-platform key — whatever the key values —
produce identical responses, and the response carries only the fixed status
and message strings plus the two booleans. -/
theorem healthHandler_noninterference (c1 c2 : Config)
    (hg : jsTruthyStr c1.groqKey = jsTruthyStr c2.groqKey)
    (hy : jsTruthyStr c1.youtubeKey = jsTruthyStr c2.youtubeKey) :
    healthHandler c1 = healthHandler c2 ∧
    (healthHandler c1).status = ("OK".toList) ∧
    (healthHandler c1).message = ("Server running".toList) := by
  refine ⟨?_, rfl, rfl⟩
  unfold healthHandler
  rw [hg, hy]

/-- C8 witness: two configurations with different secret values but equal
presence yield the same health response. -/
theorem healthHandler_noninterference_witness :
    healthHandler { groqKey := some ("secret-one".toList), youtubeKey := none }
      = healthHandler { groqKey := some ("another-secret".toList), youtubeKey := none } :=
  (healthHandler_noninterference
    { groqKey := some ("secret-one".toList), youtubeKey := none }
    { groqKey := some ("another-secret".toList), youtubeKey := none }
    (by decide) rfl).1

/-- C9: `extractVideoId` is a total function on strings whose result is
always either `none` (JS `null`) or a token of exactly 11 characters. -/
theorem extractVideoId_total_shape (url : List Char) :
    extractVideoId url = none ∨
    ∃ t, extractVideoId url = some t ∧ t.length = 11 := by
  unfold extractVideoId
  cases findAlt url with
  | none => exact Or.inl rfl
  | some rest =>
    by_cases h : (group7 rest).length = 11
    · exact Or.inr ⟨group7 rest, by simp [h], h⟩
    · exact Or.inl (by simp [h])

/-- C5: `extractVideoId` extracts the 11-character identifier from the
watch-URL, short-URL and embed-URL forms, returns `null` on a string that
matches none of the recognized URL shapes (such as "not a url" — the regex
alternation finds no occurrence), and returns `null` whenever the regex
does not match or the extracted token is not exactly 11 characters long. -/
theorem extractVideoId_url_forms :
    extractVideoId ("https://www.youtube.com/watch?v=dQw4w9WgXcQ".toList)
        = some ("dQw4w9WgXcQ".toList) ∧
    extractVideoId ("https://youtu.be/dQw4w9WgXcQ".toList)
        = some ("dQw4w9WgXcQ".toList) ∧
    extractVideoId ("https://www.youtube.com/embed/dQw4w9WgXcQ".toList)
        = some ("dQw4w9WgXcQ".toList) ∧
    extractVideoId ("not a url".toList) = none ∧
    (∀ url, findAlt url = none → extractVideoId url = none) ∧
    (∀ url rest, findAlt url = some rest → (group7 rest).length ≠ 11 →
        extractVideoId url = none) := by
  refine ⟨by decide, by decide, by decide, by decide, ?_, ?_⟩
  · intro url h
    simp [extractVideoId, h]
  · intro url rest h hlen
    simp [extractVideoId, h, hlen]

/-- C5 witness: the rejection branches applied at concrete inputs — a
string the regex does not match, and a watch URL whose token has 10
characters rather than 11. -/
theorem extractVideoId_url_forms_witness :
    extractVideoId ("not a url".toList) = none ∧
    extractVideoId ("https://www.youtube.com/watch?v=shortoken0".toList) = none := by
  constructor
  · exact extractVideoId_url_forms.2.2.2.2.1 ("not a url".toList) (by decide)
  · exact extractVideoId_url_forms.2.2.2.2.2
      ("https://www.youtube.com/watch?v=shortoken0".toList)
      ("v=shortoken0".toList) (by decide) (by decide)

/-- For a label made of literal characters only, the interpolated-pattern
match coincides with the exact case-insensitive label match. -/
lemma labelMatchAt_of_literal (sub : List Char) (h : labelLiteral sub = true) :
    ∀ l, labelMatchAt sub l = ciMatchAt sub l := by
  induction sub with
  | nil => intro l; cases l <;> rfl
  | cons p ps ih =>
    have h' : (!regexSpecial p) = true ∧ labelLiteral ps = true := by
      simpa [labelLiteral, Bool.and_eq_true] using h
    have hp : p ≠ '.' := by
      intro hp
      rw [hp] at h'
      exact absurd h'.1 (by decide)
    intro l
    cases l with
    | nil => rfl
    | cons c cs =>
      simp only [labelMatchAt, ciMatchAt, if_neg hp]
      rw [ih h'.2 cs]

/-- For a label made of literal characters only, the source-derived search
coincides with the spec's exact-label search. -/
lemma searchSub_eq_spec (sub : List Char) (h : labelLiteral sub = true) :
    ∀ txt, searchSub sub txt = specSearchSub sub txt := by
  intro txt
  induction txt with
  | nil => rfl
  | cons c cs ih =>
    simp only [searchSub, specSearchSub, labelMatchAt_of_literal sub h, ih]

/-- C3 counterexample: the claim describes the parse as searching for the
exact label, but server.js interpolates the label into the pattern
unescaped, so in the label "a.c" the "." is a wildcard.  On reply text
"abc Score: 80" the exact label "a.c" does not occur (the spec-side parse
yields no match, hence score 0), yet the code's parse matches "abc" and
returns score 80. -/
theorem parseSubtopic_exact_label_counterexample :
    parseSubtopic ("abc Score: 80".toList) ("a.c".toList)
        ≠ specParseSubtopic ("abc Score: 80".toList) ("a.c".toList) ∧
    specSearchSub ("a.c".toList) ("abc Score: 80".toList) = none ∧
    (parseSubtopic ("abc Score: 80".toList) ("a.c".toList)).coverageScore = 80 ∧
    (specParseSubtopic ("abc Score: 80".toList) ("a.c".toList)).coverageScore = 0 := by
  decide

/-- C3 amended: for a subtopic label containing no regex metacharacter, the
per-subtopic parse is exactly the claimed one — first occurrence of the
exact label (case-insensitively) followed anywhere later, non-greedily, by
the token "Score:" and a digit run; on a match the result carries the
parsed unclamped integer, covered = (score ≥ 50) and evidence "Evidence
found in transcript.", and on no match score 0, covered false and evidence
"No evidence found." (the behavior packaged in `specParseSubtopic`). -/
theorem parseSubtopic_literal_label_spec (txt sub : List Char)
    (h : labelLiteral sub = true) :
    parseSubtopic txt sub = specParseSubtopic txt sub := by
  unfold parseSubtopic specParseSubtopic
  rw [searchSub_eq_spec sub h txt]

/-- C3 amended witness: a concrete literal label, exercised on both the
match and the no-match side. -/
theorem parseSubtopic_literal_label_spec_witness :
    parseSubtopic ("xx Score: 80".toList) ("xx".toList)
        = specParseSubtopic ("xx Score: 80".toList) ("xx".toList) ∧
    parseSubtopic ("nothing here".toList) ("xx".toList)
        = specParseSubtopic ("nothing here".toList) ("xx".toList) :=
  ⟨parseSubtopic_literal_label_spec ("xx Score: 80".toList) ("xx".toList) (by decide),
   parseSubtopic_literal_label_spec ("nothing here".toList) ("xx".toList) (by decide)⟩

/-- Integer form of round-half-up: for `n > 0`,
`Math.round(s/n) = ⌊s/n + 1/2⌋ = (2*s + n) / (2*n)` in natural division. -/
lemma natRoundHalfUp (s n : Nat) (hn : 0 < n) :
    (2 * s + n) / (2 * n) = Nat.floor ((s : ℚ) / (n : ℚ) + 1 / 2) := by
  have hn' : (n : ℚ) ≠ 0 := by
    exact_mod_cast hn.ne'
  have h1 : (s : ℚ) / n + 1 / 2 = ((2 * s + n : ℕ) : ℚ) / ((2 * n : ℕ) : ℚ) := by
    push_cast
    field_simp
    ring
  rw [h1, Nat.floor_div_nat, Nat.floor_natCast]

/-- C4: on the success path the overall score is the arithmetic mean of the
per-subtopic coverage scores rounded to the nearest integer with halves
rounded up, and in particular scores [0, 100, 50] give 50 and scores
[33, 34] give 34. -/
theorem analyzeCoverage_overall_mean :
    (∀ transcript topic subs call txt,
        call (buildPrompt transcript subs) = some txt → subs ≠ [] →
        ∃ m, (analyzeCoverage transcript subs topic call).overallScore = some m ∧
          m = Nat.floor
            (((((analyzeCoverage transcript subs topic call).subtopicAnalysis).map
                SubtopicResult.coverageScore).sum : ℚ) / (subs.length : ℚ) + 1 / 2)) ∧
    (analyzeCoverage [] [("xx".toList), ("yy".toList), ("zz".toList)] []
        (fun _ => some ("xx Score: 0 yy Score: 100 zz Score: 50".toList))).overallScore
        = some 50 ∧
    (analyzeCoverage [] [("xx".toList), ("yy".toList)] []
        (fun _ => some ("xx Score: 33 yy Score: 34".toList))).overallScore = some 34 := by
  refine ⟨?_, by decide, by decide⟩
  intro transcript topic subs call txt hc hne
  have hn : subs.length ≠ 0 := fun h => hne (List.length_eq_zero.mp h)
  simp only [analyzeCoverage, hc, List.length_map]
  refine ⟨(2 * scoreSum (subs.map (parseSubtopic txt)) + subs.length)
      / (2 * subs.length), ?_, ?_⟩
  · simp [jsRoundDiv, hn]
  · exact natRoundHalfUp _ _ (Nat.pos_of_ne_zero hn)

/-- C4 witness: the general mean statement applied at a concrete success
response with scores 33 and 34. -/
theorem analyzeCoverage_overall_mean_witness :
    ∃ m, (analyzeCoverage [] [("xx".toList), ("yy".toList)] []
        (fun _ => some ("xx Score: 33 yy Score: 34".toList))).overallScore = some m ∧
      m = Nat.floor
        (((((analyzeCoverage [] [("xx".toList), ("yy".toList)] []
            (fun _ => some ("xx Score: 33 yy Score: 34".toList))).subtopicAnalysis).map
            SubtopicResult.coverageScore).sum : ℚ)
          / (([("xx".toList), ("yy".toList)] : List (List Char)).length : ℚ) + 1 / 2) :=
  analyzeCoverage_overall_mean.1 [] [] [("xx".toList), ("yy".toList)]
    (fun _ => some ("xx Score: 33 yy Score: 34".toList))
    ("xx Score: 33 yy Score: 34".toList) rfl (by decide)

/-- C6: the `/api/analyze` handler answers 400 with an error body whenever
`youtubeUrl`, `topic` or `customSubtopics` is missing (or a falsy string)
or `customSubtopics` is empty, and 400 when the supplied `youtubeUrl`
yields no video identifier; each 400 result holds for every upstream
oracle, so no upstream call influences (or is needed for) the response.
The last two conjuncts instantiate this for an empty `customSubtopics`
array and for the malformed URL "not a url". -/
theorem analyzeHandler_validation_400 :
    (∀ req up, (jsTruthyStr req.youtubeUrl = false ∨ jsTruthyStr req.topic = false ∨
        emptyOrMissing req.customSubtopics = true) →
        analyzeHandler req up
          = .badRequest ("YouTube URL, topic, and at least one subtopic are required.".toList)) ∧
    (∀ req up, jsTruthyStr req.youtubeUrl = true → jsTruthyStr req.topic = true →
        emptyOrMissing req.customSubtopics = false →
        extractVideoId (req.youtubeUrl.getD []) = none →
        analyzeHandler req up = .badRequest ("Invalid YouTube URL.".toList)) ∧
    (∀ up, analyzeHandler
        { youtubeUrl := some ("https://www.youtube.com/watch?v=dQw4w9WgXcQ".toList),
          topic := some ("t".toList), customSubtopics := some [] } up
        = .badRequest ("YouTube URL, topic, and at least one subtopic are required.".toList)) ∧
    (∀ up, analyzeHandler
        { youtubeUrl := some ("not a url".toList), topic := some ("t".toList),
          customSubtopics := some [("s".toList)] } up
        = .badRequest ("Invalid YouTube URL.".toList)) := by
  refine ⟨?_, ?_, fun up => rfl, fun up => rfl⟩
  · intro req up h
    rcases h with h | h | h <;> simp [analyzeHandler, h]
  · intro req up h1 h2 h3 h4
    simp [analyzeHandler, h1, h2, h3, h4]

/-- C6 witness: a request with a missing `youtubeUrl` against a concrete
upstream oracle. -/
theorem analyzeHandler_validation_400_witness :
    analyzeHandler
      { youtubeUrl := none, topic := some ("t".toList),
        customSubtopics := some [("s".toList)] }
      { videoData := fun _ => Except.error []
        transcript := fun _ => Except.error []
        callGroq := fun _ => none }
      = .badRequest ("YouTube URL, topic, and at least one subtopic are required.".toList) :=
  analyzeHandler_validation_400.1 _ _ (Or.inl rfl)

/-- C10: the overall-score division has no empty-list guard: on the success
path with a non-empty subtopic list the quotient is a well-defined natural
number, but with the empty subtopic list it is the JS division 0/0, i.e.
NaN (`none` in this model). -/
theorem analyzeCoverage_empty_division (transcript topic : List Char)
    (call : List Char → Option (List Char)) :
    (∀ txt, call (buildPrompt transcript []) = some txt →
        (analyzeCoverage transcript [] topic call).overallScore = none) ∧
    (∀ subs txt, subs ≠ [] → call (buildPrompt transcript subs) = some txt →
        ∃ m, (analyzeCoverage transcript subs topic call).overallScore = some m) := by
  constructor
  · intro txt h
    simp [analyzeCoverage, h, jsRoundDiv]
  · intro subs txt hne h
    have hn : subs.length ≠ 0 := fun h0 => hne (List.length_eq_zero.mp h0)
    simp only [analyzeCoverage, h, List.length_map]
    refine ⟨(2 * scoreSum (subs.map (parseSubtopic txt)) + subs.length)
        / (2 * subs.length), ?_⟩
    simp [jsRoundDiv, hn]

/-- C10 witness: calling `analyzeCoverage` directly with the empty subtopic
list and a succeeding completion call yields a NaN overall score. -/
theorem analyzeCoverage_empty_division_witness :
    (analyzeCoverage [] [] [] (fun _ => some [])).overallScore = none :=
  (analyzeCoverage_empty_division [] [] (fun _ => some [])).1 [] rfl
